import Mathlib

/-!
Verification of the aws-transit-gateway-hub repository.

The repository is a Pulumi program consisting of pure builder functions
(`src/vpc.py`, `src/networking.py`, `src/tgw.py`) and a straight-line
assembly script (`src/__main__.py`).  Each builder declares a resource
descriptor and returns it; a raised Python exception is modelled as
`Except.error`, a normal return as `Except.ok` (or a plain value for
builders that can never raise).  A Pulumi resource handle (the `.id`
output that downstream declarations reference) is modelled by the
resource's logical name, which is unique per resource in this program.
Python truthiness of an optional string argument (used by the source in
`if gateway_id:`-style tests) is modelled by `pyTruthy`.
-/

/-- Python truthiness of an optional string: `None` and the empty string
are falsy, every other string is truthy. -/
def pyTruthy : Option String → Bool
  | none => false
  | some s => !s.isEmpty

/-- Python `x or default` for an optional string (`config.get(k) or d`). -/
def pyOrStr (o : Option String) (d : String) : String :=
  match o with
  | some s => if s.isEmpty then d else s
  | none => d

/-- Python `x or default` for an optional integer (`config.get_int(k) or d`);
zero is falsy in Python. -/
def pyOrNat (o : Option Nat) (d : Nat) : Nat :=
  match o with
  | some n => if n = 0 then d else n
  | none => d

/-- Python `x or default` for an optional boolean
(`config.get_bool(k) or d`). -/
def pyOrBool (o : Option Bool) (d : Bool) : Bool :=
  match o with
  | some b => if b then b else d
  | none => d

/-- Python `tags or {}` applied to an optional tag dictionary. -/
def pyOrTags (o : Option (List (String × String))) : List (String × String) :=
  match o with
  | some t => if t.isEmpty then [] else t
  | none => []

/-- Python `"enable" if b else "disable"` used throughout `src/tgw.py`. -/
def enableDisable (b : Bool) : String :=
  if b then "enable" else "disable"

/-- Descriptor declared by `aws.ec2.Vpc` (src/vpc.py). -/
structure Vpc where
  name : String
  cidrBlock : String
  enableDnsHostnames : Bool
  enableDnsSupport : Bool
  tags : List (String × String)
deriving DecidableEq, Inhabited

/-- Descriptor declared by `aws.ec2.Subnet` (src/networking.py). -/
structure Subnet where
  name : String
  vpcId : String
  cidrBlock : String
  availabilityZone : String
  mapPublicIpOnLaunch : Bool
  tags : List (String × String)
deriving DecidableEq, Inhabited

/-- Descriptor declared by `aws.ec2.InternetGateway` (src/networking.py). -/
structure InternetGateway where
  name : String
  vpcId : String
  tags : List (String × String)
deriving DecidableEq, Inhabited

/-- Descriptor declared by `aws.ec2.RouteTable` (src/networking.py). -/
structure RouteTable where
  name : String
  vpcId : String
  tags : List (String × String)
deriving DecidableEq, Inhabited

/-- Descriptor declared by `aws.ec2.Route`.  The four optional reference
fields correspond to the keyword arguments the source may place in
`route_args` (src/networking.py `create_route` and src/tgw.py
`add_tgw_route_to_vpc_route_table`); a field is `none` when the source
does not pass that keyword. -/
structure Route where
  name : String
  routeTableId : String
  destinationCidrBlock : String
  gatewayId : Option String
  natGatewayId : Option String
  vpcPeeringConnectionId : Option String
  transitGatewayId : Option String
deriving DecidableEq, Inhabited

/-- Descriptor declared by `aws.ec2.RouteTableAssociation`
(src/networking.py). -/
structure RouteTableAssociation where
  name : String
  subnetId : String
  routeTableId : String
deriving DecidableEq, Inhabited

/-- Embedding of `create_subnets` (src/networking.py lines 13-37): the
source iterates `enumerate(zip(cidr_blocks, availability_zones))` and
declares one subnet per pair. -/
def create_subnets (pre vpcId : String) (cidrBlocks availabilityZones : List String)
    (publicFlag : Bool) (tags : List (String × String)) : List Subnet :=
  ((cidrBlocks.zip availabilityZones).enum).map fun p =>
    { name := pre ++ "-" ++ toString p.1
      vpcId := vpcId
      cidrBlock := p.2.1
      availabilityZone := p.2.2
      mapPublicIpOnLaunch := publicFlag
      tags := ("Name", pre ++ "-" ++ toString p.1) :: tags }

/-- Embedding of `create_internet_gateway` (src/networking.py lines 40-49). -/
def create_internet_gateway (name vpcId : String)
    (tags : List (String × String)) : InternetGateway :=
  { name := name, vpcId := vpcId, tags := ("Name", name) :: tags }

/-- Embedding of `create_route_tables` (src/networking.py lines 77-91):
declares `count` route tables named with suffixes `-0`, `-1`, .... -/
def create_route_tables (pre vpcId : String) (count : Nat)
    (tags : List (String × String)) : List RouteTable :=
  (List.range count).map fun i =>
    { name := pre ++ "-" ++ toString i
      vpcId := vpcId
      tags := ("Name", pre ++ "-" ++ toString i) :: tags }

/-- Embedding of `create_route` (src/networking.py lines 94-118).  The
source tests the three optional next-hop arguments with an
`if`/`elif`/`elif`/`else` chain on Python truthiness and raises
`ValueError` only in the final `else` branch. -/
def create_route (name routeTableId destinationCidrBlock : String)
    (gatewayId natGatewayId vpcPeeringConnectionId : Option String) :
    Except String Route :=
  if pyTruthy gatewayId then
    .ok { name := name, routeTableId := routeTableId
          destinationCidrBlock := destinationCidrBlock
          gatewayId := gatewayId, natGatewayId := none
          vpcPeeringConnectionId := none, transitGatewayId := none }
  else if pyTruthy natGatewayId then
    .ok { name := name, routeTableId := routeTableId
          destinationCidrBlock := destinationCidrBlock
          gatewayId := none, natGatewayId := natGatewayId
          vpcPeeringConnectionId := none, transitGatewayId := none }
  else if pyTruthy vpcPeeringConnectionId then
    .ok { name := name, routeTableId := routeTableId
          destinationCidrBlock := destinationCidrBlock
          gatewayId := none, natGatewayId := none
          vpcPeeringConnectionId := vpcPeeringConnectionId, transitGatewayId := none }
  else
    .error "Must specify gateway_id, nat_gateway_id, or vpc_peering_connection_id"

/-- Embedding of `associate_route_table` (src/networking.py lines 121-128). -/
def associate_route_table (name subnetId routeTableId : String) :
    RouteTableAssociation :=
  { name := name, subnetId := subnetId, routeTableId := routeTableId }

/-- Embedding of `create_vpc` (src/vpc.py lines 14-59).  The source
raises `ValueError` when `not cidr_block or "/" not in cidr_block`,
before the `aws.ec2.Vpc` declaration; otherwise it declares the VPC.
Membership of the single-character string "/" is embedded as membership
of the character in the string's character list. -/
def create_vpc (name cidrBlock : String)
    (enableDnsHostnames enableDnsSupport : Bool)
    (tags : List (String × String)) : Except String Vpc :=
  if cidrBlock.isEmpty || !(cidrBlock.data.contains '/') then
    .error ("Invalid CIDR block: " ++ cidrBlock)
  else
    .ok { name := name, cidrBlock := cidrBlock
          enableDnsHostnames := enableDnsHostnames
          enableDnsSupport := enableDnsSupport
          tags := ("Name", name) :: tags }

/-- A string whose character list contains a character is not empty. -/
theorem contains_ne_empty (s : String) (c : Char) (h : s.data.contains c = true) :
    s.isEmpty = false := by
  cases he : s.isEmpty with
  | false => rfl
  | true =>
    have hs : s = "" := (String.isEmpty_iff s).mp he
    subst hs
    simp at h

/-- C2: for every pair of input lists, `create_subnets` returns a list
whose length is the length of the shorter input (the zip silently
truncates); being a total function it raises no error on a length
mismatch. -/
theorem create_subnets_length_min (pre vpcId : String)
    (cidrBlocks availabilityZones : List String) (publicFlag : Bool)
    (tags : List (String × String)) :
    (create_subnets pre vpcId cidrBlocks availabilityZones publicFlag tags).length
      = min cidrBlocks.length availabilityZones.length := by
  simp [create_subnets]

/-- C6: `create_subnets` pairs the i-th CIDR with the i-th availability
zone and keeps input order: the subnet at index i carries the i-th cidr
and i-th zone and the name suffix `-i`. -/
theorem create_subnets_positional_pairing (pre vpcId : String)
    (cidrBlocks availabilityZones : List String) (publicFlag : Bool)
    (tags : List (String × String)) (i : Nat) (cidr az : String)
    (hc : cidrBlocks[i]? = some cidr) (ha : availabilityZones[i]? = some az) :
    (create_subnets pre vpcId cidrBlocks availabilityZones publicFlag tags)[i]?
      = some { name := pre ++ "-" ++ toString i
               vpcId := vpcId
               cidrBlock := cidr
               availabilityZone := az
               mapPublicIpOnLaunch := publicFlag
               tags := ("Name", pre ++ "-" ++ toString i) :: tags } := by
  have hz : (cidrBlocks.zip availabilityZones)[i]? = some (cidr, az) :=
    List.getElem?_zip_eq_some.mpr ⟨hc, ha⟩
  simp [create_subnets, List.getElem?_enum, hz]

/-- C6 witness: the second subnet of a concrete two-element call carries
the second cidr and the second zone. -/
theorem create_subnets_positional_pairing_checked :
    (create_subnets "net" "vpc-1" ["10.0.1.0/24", "10.0.2.0/24"]
        ["us-east-1a", "us-east-1b"] false [])[1]?
      = some { name := "net-1"
               vpcId := "vpc-1"
               cidrBlock := "10.0.2.0/24"
               availabilityZone := "us-east-1b"
               mapPublicIpOnLaunch := false
               tags := [("Name", "net-1")] } :=
  create_subnets_positional_pairing "net" "vpc-1" ["10.0.1.0/24", "10.0.2.0/24"]
    ["us-east-1a", "us-east-1b"] false [] 1 "10.0.2.0/24" "us-east-1b" rfl rfl

/-- C4: `create_vpc` succeeds with the given CIDR exactly when the string
contains a slash, and otherwise fails with the configuration error,
returning before any VPC descriptor is produced. -/
theorem create_vpc_cidr_validation (name cidrBlock : String)
    (enableDnsHostnames enableDnsSupport : Bool)
    (tags : List (String × String)) :
    (cidrBlock.data.contains '/' = true →
      create_vpc name cidrBlock enableDnsHostnames enableDnsSupport tags
        = .ok { name := name, cidrBlock := cidrBlock
                enableDnsHostnames := enableDnsHostnames
                enableDnsSupport := enableDnsSupport
                tags := ("Name", name) :: tags })
    ∧ (cidrBlock.data.contains '/' = false →
      create_vpc name cidrBlock enableDnsHostnames enableDnsSupport tags
        = .error ("Invalid CIDR block: " ++ cidrBlock)) := by
  constructor
  · intro h
    have hne := contains_ne_empty cidrBlock '/' h
    have hm : '/' ∈ cidrBlock.data := by simpa using h
    simp [create_vpc, hne, hm]
  · intro h
    have hm : '/' ∉ cidrBlock.data := by simpa using h
    simp [create_vpc, hm]

/-- C4 witness: a well-formed CIDR is accepted and a string without a
slash (here the empty string is covered by the same branch) is rejected. -/
theorem create_vpc_cidr_validation_checked :
    create_vpc "lab" "10.200.0.0/16" true true []
      = .ok { name := "lab", cidrBlock := "10.200.0.0/16"
              enableDnsHostnames := true, enableDnsSupport := true
              tags := [("Name", "lab")] }
    ∧ create_vpc "lab" "10.200.0.0" true true []
      = .error "Invalid CIDR block: 10.200.0.0" :=
  ⟨(create_vpc_cidr_validation "lab" "10.200.0.0/16" true true []).1 (by decide),
   (create_vpc_cidr_validation "lab" "10.200.0.0" true true []).2 (by decide)⟩

/-- C1 counterexample: supplying two next-hop variants does not raise;
the call succeeds and silently uses the gateway, contradicting the claim
that more than one supplied variant fails with a configuration error. -/
theorem create_route_accepts_two_next_hops :
    create_route "r" "rt-1" "0.0.0.0/0" (some "igw-1") (some "nat-1") none
      = .ok { name := "r", routeTableId := "rt-1"
              destinationCidrBlock := "0.0.0.0/0"
              gatewayId := some "igw-1", natGatewayId := none
              vpcPeeringConnectionId := none, transitGatewayId := none } := by
  rfl

/-- C1 amended: `create_route` fails exactly when no next-hop variant is
supplied (all three arguments Python-falsy); when exactly one variant is
supplied the call succeeds and the returned route references that next
hop. -/
theorem create_route_next_hop_resolution
    (name routeTableId destinationCidrBlock : String)
    (g n p : Option String) :
    ((create_route name routeTableId destinationCidrBlock g n p
        = .error "Must specify gateway_id, nat_gateway_id, or vpc_peering_connection_id")
      ↔ (pyTruthy g = false ∧ pyTruthy n = false ∧ pyTruthy p = false))
    ∧ (pyTruthy g = true → pyTruthy n = false → pyTruthy p = false →
        create_route name routeTableId destinationCidrBlock g n p
          = .ok { name := name, routeTableId := routeTableId
                  destinationCidrBlock := destinationCidrBlock
                  gatewayId := g, natGatewayId := none
                  vpcPeeringConnectionId := none, transitGatewayId := none })
    ∧ (pyTruthy g = false → pyTruthy n = true → pyTruthy p = false →
        create_route name routeTableId destinationCidrBlock g n p
          = .ok { name := name, routeTableId := routeTableId
                  destinationCidrBlock := destinationCidrBlock
                  gatewayId := none, natGatewayId := n
                  vpcPeeringConnectionId := none, transitGatewayId := none })
    ∧ (pyTruthy g = false → pyTruthy n = false → pyTruthy p = true →
        create_route name routeTableId destinationCidrBlock g n p
          = .ok { name := name, routeTableId := routeTableId
                  destinationCidrBlock := destinationCidrBlock
                  gatewayId := none, natGatewayId := none
                  vpcPeeringConnectionId := p, transitGatewayId := none }) := by
  refine ⟨?_, ?_, ?_, ?_⟩
  · cases hg : pyTruthy g <;> cases hn : pyTruthy n <;> cases hp : pyTruthy p <;>
      simp [create_route, hg, hn, hp]
  · intro hg _ _
    simp [create_route, hg]
  · intro hg hn _
    simp [create_route, hg, hn]
  · intro hg hn hp
    simp [create_route, hg, hn, hp]

/-- C1 witness: with no next hop the call fails with the configuration
error, and with exactly a gateway it succeeds referencing the gateway. -/
theorem create_route_next_hop_resolution_checked :
    (create_route "r" "rt-1" "0.0.0.0/0" none none none
      = .error "Must specify gateway_id, nat_gateway_id, or vpc_peering_connection_id")
    ∧ (create_route "r" "rt-1" "0.0.0.0/0" (some "igw-1") none none
      = .ok { name := "r", routeTableId := "rt-1"
              destinationCidrBlock := "0.0.0.0/0"
              gatewayId := some "igw-1", natGatewayId := none
              vpcPeeringConnectionId := none, transitGatewayId := none }) :=
  ⟨((create_route_next_hop_resolution "r" "rt-1" "0.0.0.0/0" none none none).1).mpr
      ⟨rfl, rfl, rfl⟩,
   (create_route_next_hop_resolution "r" "rt-1" "0.0.0.0/0" (some "igw-1") none none).2.1
      (by decide) rfl rfl⟩

/-- C8: when several next-hop arguments are supplied, the first truthy
one in the fixed order gateway, NAT gateway, peering connection wins and
the remaining arguments are silently dropped from the declared route. -/
theorem create_route_precedence_order
    (name routeTableId destinationCidrBlock : String)
    (g n p : Option String) :
    (pyTruthy g = true →
      create_route name routeTableId destinationCidrBlock g n p
        = .ok { name := name, routeTableId := routeTableId
                destinationCidrBlock := destinationCidrBlock
                gatewayId := g, natGatewayId := none
                vpcPeeringConnectionId := none, transitGatewayId := none })
    ∧ (pyTruthy g = false → pyTruthy n = true →
      create_route name routeTableId destinationCidrBlock g n p
        = .ok { name := name, routeTableId := routeTableId
                destinationCidrBlock := destinationCidrBlock
                gatewayId := none, natGatewayId := n
                vpcPeeringConnectionId := none, transitGatewayId := none })
    ∧ (pyTruthy g = false → pyTruthy n = false → pyTruthy p = true →
      create_route name routeTableId destinationCidrBlock g n p
        = .ok { name := name, routeTableId := routeTableId
                destinationCidrBlock := destinationCidrBlock
                gatewayId := none, natGatewayId := none
                vpcPeeringConnectionId := p, transitGatewayId := none }) := by
  refine ⟨?_, ?_, ?_⟩
  · intro hg
    simp [create_route, hg]
  · intro hg hn
    simp [create_route, hg, hn]
  · intro hg hn hp
    simp [create_route, hg, hn, hp]

/-- C8 witness: with all three arguments supplied the gateway wins and
the NAT gateway and peering connection are dropped; with NAT gateway and
peering supplied the NAT gateway wins. -/
theorem create_route_precedence_order_checked :
    (create_route "r" "rt-1" "0.0.0.0/0" (some "igw-1") (some "nat-1") (some "pcx-1")
      = .ok { name := "r", routeTableId := "rt-1"
              destinationCidrBlock := "0.0.0.0/0"
              gatewayId := some "igw-1", natGatewayId := none
              vpcPeeringConnectionId := none, transitGatewayId := none })
    ∧ (create_route "r" "rt-1" "0.0.0.0/0" none (some "nat-1") (some "pcx-1")
      = .ok { name := "r", routeTableId := "rt-1"
              destinationCidrBlock := "0.0.0.0/0"
              gatewayId := none, natGatewayId := some "nat-1"
              vpcPeeringConnectionId := none, transitGatewayId := none }) :=
  ⟨(create_route_precedence_order "r" "rt-1" "0.0.0.0/0"
      (some "igw-1") (some "nat-1") (some "pcx-1")).1 (by decide),
   (create_route_precedence_order "r" "rt-1" "0.0.0.0/0"
      none (some "nat-1") (some "pcx-1")).2.1 rfl (by decide)⟩

/-- Descriptor declared by `aws.ec2transitgateway.TransitGateway`
(src/tgw.py `create_transit_gateway`); the four enable/disable fields
hold the strings the source derives from its boolean arguments. -/
structure TransitGateway where
  name : String
  description : String
  amazonSideAsn : Nat
  defaultRouteTableAssociation : String
  defaultRouteTablePropagation : String
  dnsSupport : String
  vpnEcmpSupport : String
  tags : List (String × String)
deriving DecidableEq, Inhabited

/-- Descriptor declared by `aws.ec2transitgateway.VpcAttachment`
(src/tgw.py `create_transit_gateway_vpc_attachment`). -/
structure VpcAttachment where
  name : String
  transitGatewayId : String
  vpcId : String
  subnetIds : List String
  dnsSupport : String
  ipv6Support : String
  applianceModeSupport : String
  tags : List (String × String)
deriving DecidableEq, Inhabited

/-- Descriptor declared by `aws.ec2transitgateway.Route` (src/tgw.py
`create_transit_gateway_route`).  The attachment reference is `none`
exactly when the source omits the keyword from `route_args`. -/
structure TgwRoute where
  name : String
  destinationCidrBlock : String
  transitGatewayRouteTableId : String
  blackhole : Bool
  transitGatewayAttachmentId : Option String
deriving DecidableEq, Inhabited

/-- Embedding of `create_transit_gateway` (src/tgw.py lines 13-61).
The source replaces a falsy description by `Transit Gateway {name}` and
converts each boolean flag to an enable/disable string. -/
def create_transit_gateway (name : String) (description : Option String)
    (amazonSideAsn : Nat)
    (defaultRouteTableAssociation defaultRouteTablePropagation : Bool)
    (dnsSupport vpnEcmpSupport : Bool)
    (tags : Option (List (String × String))) : TransitGateway :=
  { name := name
    description := pyOrStr description ("Transit Gateway " ++ name)
    amazonSideAsn := amazonSideAsn
    defaultRouteTableAssociation := enableDisable defaultRouteTableAssociation
    defaultRouteTablePropagation := enableDisable defaultRouteTablePropagation
    dnsSupport := enableDisable dnsSupport
    vpnEcmpSupport := enableDisable vpnEcmpSupport
    tags := pyOrTags tags }

/-- Embedding of `create_transit_gateway_vpc_attachment` (src/tgw.py
lines 64-113).  The source performs no validation of `subnet_ids`; it
passes the list through to the declared attachment unconditionally. -/
def create_transit_gateway_vpc_attachment (name transitGatewayId vpcId : String)
    (subnetIds : List String)
    (dnsSupport ipv6Support applianceModeSupport : Bool)
    (tags : Option (List (String × String))) : VpcAttachment :=
  { name := name
    transitGatewayId := transitGatewayId
    vpcId := vpcId
    subnetIds := subnetIds
    dnsSupport := enableDisable dnsSupport
    ipv6Support := enableDisable ipv6Support
    applianceModeSupport := enableDisable applianceModeSupport
    tags := pyOrTags tags }

/-- Embedding of `create_transit_gateway_route` (src/tgw.py lines
210-246).  The source adds the attachment keyword to `route_args` only
under `if transit_gateway_attachment_id and not blackhole`. -/
def create_transit_gateway_route (name destinationCidrBlock : String)
    (transitGatewayRouteTableId : String)
    (transitGatewayAttachmentId : Option String)
    (blackhole : Bool) : TgwRoute :=
  { name := name
    destinationCidrBlock := destinationCidrBlock
    transitGatewayRouteTableId := transitGatewayRouteTableId
    blackhole := blackhole
    transitGatewayAttachmentId :=
      if pyTruthy transitGatewayAttachmentId && !blackhole then
        transitGatewayAttachmentId
      else
        none }

/-- Embedding of `add_tgw_route_to_vpc_route_table` (src/tgw.py lines
249-281): declares an `aws.ec2.Route` whose only next-hop reference is
the transit gateway. -/
def add_tgw_route_to_vpc_route_table
    (name routeTableId destinationCidrBlock transitGatewayId : String) : Route :=
  { name := name
    routeTableId := routeTableId
    destinationCidrBlock := destinationCidrBlock
    gatewayId := none
    natGatewayId := none
    vpcPeeringConnectionId := none
    transitGatewayId := some transitGatewayId }

/-- Tags the composite builder passes to each attachment:
the Python `{**tags, "VPC": name} if tags else {"VPC": name}`. -/
def attachTagsFor (tags : Option (List (String × String))) (vpcName : String) :
    List (String × String) :=
  match tags with
  | some t => if t.isEmpty then [("VPC", vpcName)] else t ++ [("VPC", vpcName)]
  | none => [("VPC", vpcName)]

/-- One entry of the `vpc_configs` argument of
`create_tgw_with_vpc_attachments` (src/tgw.py lines 284-351). -/
structure VpcConfig where
  name : String
  vpcId : String
  subnetIds : List String
  cidr : String
  routeTableId : String
deriving DecidableEq, Inhabited

/-- Embedding of `create_tgw_with_vpc_attachments` (src/tgw.py lines
284-351): creates the transit gateway, one attachment per config in
order, and the nested `enumerate` loops that add one return route per
ordered pair of distinct configs (`if i != j`). -/
def create_tgw_with_vpc_attachments (pre tgwDescription : String)
    (vpcConfigs : List VpcConfig) (useDefaultRouteTable : Bool)
    (tags : Option (List (String × String))) :
    TransitGateway × List VpcAttachment × List Route :=
  let tgw := create_transit_gateway (pre ++ "-tgw") (some tgwDescription) 64512
    useDefaultRouteTable useDefaultRouteTable true true tags
  let attachments := vpcConfigs.map fun c =>
    create_transit_gateway_vpc_attachment (pre ++ "-" ++ c.name ++ "-attachment")
      tgw.name c.vpcId c.subnetIds true false false (some (attachTagsFor tags c.name))
  let vpc_routes := vpcConfigs.enum.flatMap fun si =>
    vpcConfigs.enum.filterMap fun dj =>
      if si.1 ≠ dj.1 then
        some (add_tgw_route_to_vpc_route_table
          (pre ++ "-" ++ si.2.name ++ "-to-" ++ dj.2.name)
          si.2.routeTableId dj.2.cidr tgw.name)
      else
        none
  (tgw, attachments, vpc_routes)

/-- C10: in `create_transit_gateway_route` a blackhole route never
carries an attachment next hop, and in general the declared route keeps
the attachment reference exactly when the argument is supplied (truthy
in the Python sense) and `blackhole` is false. -/
theorem tgw_route_blackhole_drops_attachment
    (name destinationCidrBlock transitGatewayRouteTableId : String)
    (att : Option String) (blackhole : Bool) :
    ((create_transit_gateway_route name destinationCidrBlock
        transitGatewayRouteTableId att true).transitGatewayAttachmentId = none)
    ∧ ((create_transit_gateway_route name destinationCidrBlock
        transitGatewayRouteTableId att blackhole).transitGatewayAttachmentId
      = if pyTruthy att && !blackhole then att else none) := by
  constructor
  · simp [create_transit_gateway_route]
  · rfl

/-- C7 counterexample: a call with an empty subnet list raises no error
and still declares the attachment (with an empty subnet list),
contradicting the claim that such a call fails and declares nothing. -/
theorem vpc_attachment_empty_subnets_declared :
    create_transit_gateway_vpc_attachment "att-1" "tgw-1" "vpc-1" []
        true false false none
      = { name := "att-1", transitGatewayId := "tgw-1", vpcId := "vpc-1"
          subnetIds := [], dnsSupport := "enable", ipv6Support := "disable"
          applianceModeSupport := "disable", tags := [] } := by
  rfl

/-- C7 amended: `create_transit_gateway_vpc_attachment` performs no
local validation of the subnet list; every call with zero subnet
handles succeeds and declares an attachment whose subnet list is empty,
leaving the failure to the external provisioning engine. -/
theorem vpc_attachment_no_subnet_validation (name transitGatewayId vpcId : String)
    (dnsSupport ipv6Support applianceModeSupport : Bool)
    (tags : Option (List (String × String))) :
    create_transit_gateway_vpc_attachment name transitGatewayId vpcId []
        dnsSupport ipv6Support applianceModeSupport tags
      = { name := name, transitGatewayId := transitGatewayId, vpcId := vpcId
          subnetIds := []
          dnsSupport := enableDisable dnsSupport
          ipv6Support := enableDisable ipv6Support
          applianceModeSupport := enableDisable applianceModeSupport
          tags := pyOrTags tags } := by
  rfl

/-- Length of the inner loop of the composite builder: filtering the
enumeration of a list by "index differs from i" keeps every element
except the one at position i (when i falls inside the enumerated index
range). -/
theorem tgw_inner_filterMap_length {α β : Type} (g : α → β) (i n : Nat) (l : List α) :
    ((l.enumFrom n).filterMap fun p => if i ≠ p.1 then some (g p.2) else none).length
      = l.length - (if n ≤ i ∧ i < n + l.length then 1 else 0) := by
  induction l generalizing n with
  | nil => simp
  | cons a t ih =>
    by_cases hc : i = n
    · subst hc
      simp only [List.enumFrom_cons, List.filterMap_cons, ne_eq, not_true_eq_false,
        Bool.false_eq_true, if_false, ih (i + 1), List.length_cons]
      split_ifs <;> omega
    · simp only [List.enumFrom_cons, List.filterMap_cons, ne_eq, hc,
        not_false_eq_true, if_true, ih (n + 1), List.length_cons]
      split_ifs <;> omega

/-- C3: given K network configs the composite builder declares exactly
one transit gateway, exactly K attachments in input order (the i-th
attachment is built from the i-th config), and exactly K(K-1) return
routes; a route is declared iff it corresponds to an ordered pair of
distinct config positions, placed in the source config's route table
with the destination config's CIDR and the single transit gateway as
next hop.  With K = 1 the route count K(K-1) is 0. -/
theorem create_tgw_with_vpc_attachments_counts (pre desc : String)
    (configs : List VpcConfig) (ud : Bool)
    (tags : Option (List (String × String))) :
    ((create_tgw_with_vpc_attachments pre desc configs ud tags).1
        = create_transit_gateway (pre ++ "-tgw") (some desc) 64512 ud ud true true tags)
    ∧ ((create_tgw_with_vpc_attachments pre desc configs ud tags).2.1.length
        = configs.length)
    ∧ (∀ i : Nat, (create_tgw_with_vpc_attachments pre desc configs ud tags).2.1[i]?
        = (configs[i]?).map fun c =>
            create_transit_gateway_vpc_attachment (pre ++ "-" ++ c.name ++ "-attachment")
              (pre ++ "-tgw") c.vpcId c.subnetIds true false false
              (some (attachTagsFor tags c.name)))
    ∧ ((create_tgw_with_vpc_attachments pre desc configs ud tags).2.2.length
        = configs.length * (configs.length - 1))
    ∧ (∀ r : Route, r ∈ (create_tgw_with_vpc_attachments pre desc configs ud tags).2.2
        ↔ ∃ (i j : Nat) (ci cj : VpcConfig),
            configs[i]? = some ci ∧ configs[j]? = some cj ∧ i ≠ j
            ∧ r = add_tgw_route_to_vpc_route_table
                (pre ++ "-" ++ ci.name ++ "-to-" ++ cj.name)
                ci.routeTableId cj.cidr (pre ++ "-tgw")) := by
  have hroutes : (create_tgw_with_vpc_attachments pre desc configs ud tags).2.2
      = configs.enum.flatMap fun si =>
          configs.enum.filterMap fun dj =>
            if si.1 ≠ dj.1 then
              some (add_tgw_route_to_vpc_route_table
                (pre ++ "-" ++ si.2.name ++ "-to-" ++ dj.2.name)
                si.2.routeTableId dj.2.cidr (pre ++ "-tgw"))
            else
              none := rfl
  have hatt : (create_tgw_with_vpc_attachments pre desc configs ud tags).2.1
      = configs.map fun c =>
          create_transit_gateway_vpc_attachment (pre ++ "-" ++ c.name ++ "-attachment")
            (pre ++ "-tgw") c.vpcId c.subnetIds true false false
            (some (attachTagsFor tags c.name)) := rfl
  refine ⟨rfl, ?_, ?_, ?_, ?_⟩
  · rw [hatt, List.length_map]
  · intro i
    rw [hatt, List.getElem?_map]
  · rw [hroutes, List.flatMap_def, List.length_flatten, List.map_map]
    have hcong : ∀ si ∈ configs.enum,
        (List.length ∘ fun si : Nat × VpcConfig =>
            configs.enum.filterMap fun dj =>
              if si.1 ≠ dj.1 then
                some (add_tgw_route_to_vpc_route_table
                  (pre ++ "-" ++ si.2.name ++ "-to-" ++ dj.2.name)
                  si.2.routeTableId dj.2.cidr (pre ++ "-tgw"))
              else
                none) si
          = configs.length - 1 := by
      intro si hsi
      have h1 := List.mem_enum_iff_getElem?.mp hsi
      obtain ⟨hlt, -⟩ := List.getElem?_eq_some_iff.mp h1
      show (configs.enum.filterMap fun dj =>
          if si.1 ≠ dj.1 then
            some (add_tgw_route_to_vpc_route_table
              (pre ++ "-" ++ si.2.name ++ "-to-" ++ dj.2.name)
              si.2.routeTableId dj.2.cidr (pre ++ "-tgw"))
          else
            none).length = configs.length - 1
      rw [List.enum_eq_enumFrom]
      rw [tgw_inner_filterMap_length
        (fun d : VpcConfig => add_tgw_route_to_vpc_route_table
          (pre ++ "-" ++ si.2.name ++ "-to-" ++ d.name)
          si.2.routeTableId d.cidr (pre ++ "-tgw")) si.1 0 configs]
      rw [if_pos (by omega : 0 ≤ si.1 ∧ si.1 < 0 + configs.length)]
    rw [List.map_congr_left hcong, List.map_const', List.enum_length,
      List.sum_const_nat]
  · intro r
    rw [hroutes, List.mem_flatMap]
    constructor
    · rintro ⟨si, hsi, hr⟩
      rw [List.mem_filterMap] at hr
      obtain ⟨dj, hdj, hif⟩ := hr
      by_cases hij : si.1 ≠ dj.1
      · rw [if_pos hij] at hif
        exact ⟨si.1, dj.1, si.2, dj.2, List.mem_enum_iff_getElem?.mp hsi,
          List.mem_enum_iff_getElem?.mp hdj, hij, (Option.some.inj hif).symm⟩
      · rw [if_neg hij] at hif
        exact absurd hif (by simp)
    · rintro ⟨i, j, ci, cj, hci, hcj, hij, hr⟩
      refine ⟨(i, ci), List.mem_enum_iff_getElem?.mpr hci, ?_⟩
      rw [List.mem_filterMap]
      refine ⟨(j, cj), List.mem_enum_iff_getElem?.mpr hcj, ?_⟩
      rw [if_pos hij, hr]

/-- C3 witness: with two concrete configs the composite declares two
attachments and 2 x 1 return routes, and the a-to-b route (a's route
table, b's CIDR, the transit gateway next hop) is among them. -/
theorem create_tgw_with_vpc_attachments_counts_checked :
    ((create_tgw_with_vpc_attachments "hub" "d"
        [{ name := "a", vpcId := "vpc-a", subnetIds := ["sn-a1"],
           cidr := "10.0.0.0/16", routeTableId := "rt-a" },
         { name := "b", vpcId := "vpc-b", subnetIds := ["sn-b1"],
           cidr := "10.1.0.0/16", routeTableId := "rt-b" }] true none).2.1.length = 2)
    ∧ ((create_tgw_with_vpc_attachments "hub" "d"
        [{ name := "a", vpcId := "vpc-a", subnetIds := ["sn-a1"],
           cidr := "10.0.0.0/16", routeTableId := "rt-a" },
         { name := "b", vpcId := "vpc-b", subnetIds := ["sn-b1"],
           cidr := "10.1.0.0/16", routeTableId := "rt-b" }] true none).2.2.length = 2 * (2 - 1))
    ∧ ({ name := "hub-a-to-b", routeTableId := "rt-a",
         destinationCidrBlock := "10.1.0.0/16", gatewayId := none,
         natGatewayId := none, vpcPeeringConnectionId := none,
         transitGatewayId := some "hub-tgw" } : Route)
        ∈ (create_tgw_with_vpc_attachments "hub" "d"
          [{ name := "a", vpcId := "vpc-a", subnetIds := ["sn-a1"],
             cidr := "10.0.0.0/16", routeTableId := "rt-a" },
           { name := "b", vpcId := "vpc-b", subnetIds := ["sn-b1"],
             cidr := "10.1.0.0/16", routeTableId := "rt-b" }] true none).2.2 :=
  ⟨(create_tgw_with_vpc_attachments_counts "hub" "d"
      [{ name := "a", vpcId := "vpc-a", subnetIds := ["sn-a1"],
         cidr := "10.0.0.0/16", routeTableId := "rt-a" },
       { name := "b", vpcId := "vpc-b", subnetIds := ["sn-b1"],
         cidr := "10.1.0.0/16", routeTableId := "rt-b" }] true none).2.1,
   (create_tgw_with_vpc_attachments_counts "hub" "d"
      [{ name := "a", vpcId := "vpc-a", subnetIds := ["sn-a1"],
         cidr := "10.0.0.0/16", routeTableId := "rt-a" },
       { name := "b", vpcId := "vpc-b", subnetIds := ["sn-b1"],
         cidr := "10.1.0.0/16", routeTableId := "rt-b" }] true none).2.2.2.1,
   ((create_tgw_with_vpc_attachments_counts "hub" "d"
      [{ name := "a", vpcId := "vpc-a", subnetIds := ["sn-a1"],
         cidr := "10.0.0.0/16", routeTableId := "rt-a" },
       { name := "b", vpcId := "vpc-b", subnetIds := ["sn-b1"],
         cidr := "10.1.0.0/16", routeTableId := "rt-b" }] true none).2.2.2.2 _).mpr
     ⟨0, 1,
      { name := "a", vpcId := "vpc-a", subnetIds := ["sn-a1"],
        cidr := "10.0.0.0/16", routeTableId := "rt-a" },
      { name := "b", vpcId := "vpc-b", subnetIds := ["sn-b1"],
        cidr := "10.1.0.0/16", routeTableId := "rt-b" },
      rfl, rfl, by decide, rfl⟩⟩

/-- Appending a nonempty string on the right yields a nonempty string. -/
theorem append_isEmpty_false (a b : String) (hb : b.isEmpty = false) :
    (a ++ b).isEmpty = false := by
  cases he : (a ++ b).isEmpty with
  | false => rfl
  | true =>
    have h1 : a ++ b = "" := (String.isEmpty_iff _).mp he
    have h2 : a.data ++ b.data = ([] : List Char) := by
      have h3 := congrArg String.data h1
      simpa using h3
    have h4 : b.data = [] := (List.append_eq_nil.mp h2).2
    have h5 : b = "" := congrArg String.mk h4
    subst h5
    exact absurd hb (by decide)

/-- One ingress or egress rule of an `aws.ec2.SecurityGroup` declaration
(src/__main__.py lines 313-398). -/
structure SgRule where
  protocol : String
  fromPort : Int
  toPort : Int
  cidrBlocks : List String
  description : String
deriving DecidableEq, Inhabited

/-- Descriptor declared by `aws.ec2.SecurityGroup` (src/__main__.py). -/
structure SecurityGroup where
  name : String
  vpcId : String
  description : String
  ingress : List SgRule
  egress : List SgRule
  tags : List (String × String)
deriving DecidableEq, Inhabited

/-- Descriptor declared by `aws.ec2.Instance` (src/__main__.py lines
409-430). -/
structure Ec2Instance where
  name : String
  instanceType : String
  ami : String
  subnetId : String
  vpcSecurityGroupIds : List String
  associatePublicIpAddress : Bool
  keyName : Option String
  tags : List (String × String)
deriving DecidableEq, Inhabited

/-- The configuration surface of the deployment pass (src/__main__.py
lines 39-63): the optional fields are the `pulumi.Config` lookups (with
their Python `or`-defaults applied inside `buildMain`), and
`project_name`, `stack_name`, `amiId` are the remaining external inputs
of the pass (the Pulumi project and stack names, and the identifier
returned by the `aws.ec2.get_ami` lookup). -/
structure StackConfig where
  lab_vpc_cidr : Option String
  lab_subnet_cidr : Option String
  lab_tgw_subnet_a_cidr : Option String
  lab_tgw_subnet_b_cidr : Option String
  dev_vpc_cidr : Option String
  dev_subnet_cidr : Option String
  dev_tgw_subnet_a_cidr : Option String
  dev_tgw_subnet_b_cidr : Option String
  instance_type : Option String
  key_name : Option String
  tgw_asn : Option Nat
  tgw_use_default_rt : Option Bool
  aws_region : Option String
  project_name : String
  stack_name : String
  amiId : String
deriving DecidableEq, Inhabited

/-- The resource graph declared by one run of the `src/__main__.py`
module body, grouped by resource kind in declaration order.
`igwRoutes` are the two internet-gateway default routes and
`tgwVpcRoutes` the two cross-network routes added through
`add_tgw_route_to_vpc_route_table` (lab-to-dev first, then dev-to-lab). -/
structure Graph where
  vpcs : List Vpc
  subnets : List Subnet
  igws : List InternetGateway
  routeTables : List RouteTable
  igwRoutes : List Route
  rtAssociations : List RouteTableAssociation
  tgw : TransitGateway
  attachments : List VpcAttachment
  tgwVpcRoutes : List Route
  securityGroups : List SecurityGroup
  instances : List Ec2Instance
deriving DecidableEq, Inhabited

/-- Embedding of the module body of `src/__main__.py` (lines 39-432):
the full declaration pass.  Configuration lookups use the same
truthiness-based defaulting as the source; the two `create_vpc` calls
and the two `create_route` calls are the only fallible steps, so the
pass returns `Except.error` exactly when one of them raises. -/
def buildMain (cfg : StackConfig) : Except String Graph := do
  let projectName := cfg.project_name
  let stackName := cfg.stack_name
  let labVpcCidr := pyOrStr cfg.lab_vpc_cidr "10.200.0.0/16"
  let labSubnetCidr := pyOrStr cfg.lab_subnet_cidr "10.200.10.0/24"
  let labTgwSubnetACidr := pyOrStr cfg.lab_tgw_subnet_a_cidr "10.200.255.0/24"
  let labTgwSubnetBCidr := pyOrStr cfg.lab_tgw_subnet_b_cidr "10.200.254.0/24"
  let devVpcCidr := pyOrStr cfg.dev_vpc_cidr "10.201.0.0/16"
  let devSubnetCidr := pyOrStr cfg.dev_subnet_cidr "10.201.10.0/24"
  let devTgwSubnetACidr := pyOrStr cfg.dev_tgw_subnet_a_cidr "10.201.255.0/24"
  let devTgwSubnetBCidr := pyOrStr cfg.dev_tgw_subnet_b_cidr "10.201.254.0/24"
  let instanceType := pyOrStr cfg.instance_type "t3.micro"
  let keyName := cfg.key_name
  let tgwAsn := pyOrNat cfg.tgw_asn 64512
  let useDefaultRt := pyOrBool cfg.tgw_use_default_rt true
  let awsRegion := pyOrStr cfg.aws_region "us-east-1"
  let commonTags := [("Project", projectName), ("ManagedBy", "Pulumi"),
    ("Environment", stackName), ("Tutorial", "6-Transit-Gateway")]
  let labVpc ← create_vpc (projectName ++ "-lab-vpc") labVpcCidr true true
    (commonTags ++ [("Name", "lab-vpc-" ++ stackName)])
  let labWorkloadSubnets := create_subnets (projectName ++ "-lab-workload")
    labVpc.name [labSubnetCidr] [awsRegion ++ "a"] false
    (commonTags ++ [("Name", "lab-workload-subnet-" ++ stackName), ("Type", "Workload")])
  let labWorkloadSubnet := labWorkloadSubnets.getD 0 default
  let labTgwSubnets := create_subnets (projectName ++ "-lab-tgw") labVpc.name
    [labTgwSubnetACidr, labTgwSubnetBCidr] [awsRegion ++ "a", awsRegion ++ "b"] false
    (commonTags ++ [("Type", "TransitGateway")])
  let labTgwSubnetA := labTgwSubnets.getD 0 default
  let labTgwSubnetB := labTgwSubnets.getD 1 default
  let labIgw := create_internet_gateway (projectName ++ "-lab-igw") labVpc.name
    (commonTags ++ [("Name", "lab-igw-" ++ stackName)])
  let labRouteTables := create_route_tables (projectName ++ "-lab-workload")
    labVpc.name 1 (commonTags ++ [("Name", "lab-workload-rt-" ++ stackName)])
  let labRouteTable := labRouteTables.getD 0 default
  let labIgwRoute ← create_route (projectName ++ "-lab-igw-route")
    labRouteTable.name "0.0.0.0/0" (some labIgw.name) none none
  let labRta := associate_route_table (projectName ++ "-lab-workload-rta")
    labWorkloadSubnet.name labRouteTable.name
  let devVpc ← create_vpc (projectName ++ "-dev-vpc") devVpcCidr true true
    (commonTags ++ [("Name", "dev-vpc-" ++ stackName)])
  let devWorkloadSubnets := create_subnets (projectName ++ "-dev-workload")
    devVpc.name [devSubnetCidr] [awsRegion ++ "a"] false
    (commonTags ++ [("Name", "dev-workload-subnet-" ++ stackName), ("Type", "Workload")])
  let devWorkloadSubnet := devWorkloadSubnets.getD 0 default
  let devTgwSubnets := create_subnets (projectName ++ "-dev-tgw") devVpc.name
    [devTgwSubnetACidr, devTgwSubnetBCidr] [awsRegion ++ "a", awsRegion ++ "b"] false
    (commonTags ++ [("Type", "TransitGateway")])
  let devTgwSubnetA := devTgwSubnets.getD 0 default
  let devTgwSubnetB := devTgwSubnets.getD 1 default
  let devIgw := create_internet_gateway (projectName ++ "-dev-igw") devVpc.name
    (commonTags ++ [("Name", "dev-igw-" ++ stackName)])
  let devRouteTables := create_route_tables (projectName ++ "-dev-workload")
    devVpc.name 1 (commonTags ++ [("Name", "dev-workload-rt-" ++ stackName)])
  let devRouteTable := devRouteTables.getD 0 default
  let devIgwRoute ← create_route (projectName ++ "-dev-igw-route")
    devRouteTable.name "0.0.0.0/0" (some devIgw.name) none none
  let devRta := associate_route_table (projectName ++ "-dev-workload-rta")
    devWorkloadSubnet.name devRouteTable.name
  let tgw := create_transit_gateway (projectName ++ "-tgw")
    (some ("Transit Gateway for " ++ projectName)) tgwAsn useDefaultRt useDefaultRt
    true true (some (commonTags ++ [("Name", "tgw-" ++ stackName)]))
  let labAttachment := create_transit_gateway_vpc_attachment
    (projectName ++ "-lab-tgw-attachment") tgw.name labVpc.name
    [labTgwSubnetA.name, labTgwSubnetB.name] true false false
    (some (commonTags ++ [("Name", "lab-tgw-attachment-" ++ stackName), ("VPC", "lab")]))
  let devAttachment := create_transit_gateway_vpc_attachment
    (projectName ++ "-dev-tgw-attachment") tgw.name devVpc.name
    [devTgwSubnetA.name, devTgwSubnetB.name] true false false
    (some (commonTags ++ [("Name", "dev-tgw-attachment-" ++ stackName), ("VPC", "dev")]))
  let labToDevRoute := add_tgw_route_to_vpc_route_table
    (projectName ++ "-lab-to-dev-via-tgw") labRouteTable.name devVpcCidr tgw.name
  let devToLabRoute := add_tgw_route_to_vpc_route_table
    (projectName ++ "-dev-to-lab-via-tgw") devRouteTable.name labVpcCidr tgw.name
  let labSg : SecurityGroup :=
    { name := projectName ++ "-lab-sg"
      vpcId := labVpc.name
      description := "Security group for Lab VPC test instance"
      ingress := [
        { protocol := "tcp", fromPort := 22, toPort := 22,
          cidrBlocks := ["0.0.0.0/0"], description := "SSH access" },
        { protocol := "icmp", fromPort := -1, toPort := -1,
          cidrBlocks := [devVpcCidr], description := "ICMP from Dev VPC" },
        { protocol := "-1", fromPort := 0, toPort := 0,
          cidrBlocks := [devVpcCidr], description := "All traffic from Dev VPC" }]
      egress := [
        { protocol := "-1", fromPort := 0, toPort := 0,
          cidrBlocks := ["0.0.0.0/0"], description := "Allow all outbound" }]
      tags := commonTags ++ [("Name", "lab-sg-" ++ stackName)] }
  let devSg : SecurityGroup :=
    { name := projectName ++ "-dev-sg"
      vpcId := devVpc.name
      description := "Security group for Dev VPC test instance"
      ingress := [
        { protocol := "tcp", fromPort := 22, toPort := 22,
          cidrBlocks := ["0.0.0.0/0"], description := "SSH access" },
        { protocol := "icmp", fromPort := -1, toPort := -1,
          cidrBlocks := [labVpcCidr], description := "ICMP from Lab VPC" },
        { protocol := "-1", fromPort := 0, toPort := 0,
          cidrBlocks := [labVpcCidr], description := "All traffic from Lab VPC" }]
      egress := [
        { protocol := "-1", fromPort := 0, toPort := 0,
          cidrBlocks := ["0.0.0.0/0"], description := "Allow all outbound" }]
      tags := commonTags ++ [("Name", "dev-sg-" ++ stackName)] }
  let labInstance : Ec2Instance :=
    { name := projectName ++ "-lab-instance"
      instanceType := instanceType
      ami := cfg.amiId
      subnetId := labWorkloadSubnet.name
      vpcSecurityGroupIds := [labSg.name]
      associatePublicIpAddress := true
      keyName := keyName
      tags := commonTags ++ [("Name", "lab-instance-" ++ stackName)] }
  let devInstance : Ec2Instance :=
    { name := projectName ++ "-dev-instance"
      instanceType := instanceType
      ami := cfg.amiId
      subnetId := devWorkloadSubnet.name
      vpcSecurityGroupIds := [devSg.name]
      associatePublicIpAddress := true
      keyName := keyName
      tags := commonTags ++ [("Name", "dev-instance-" ++ stackName)] }
  pure
    { vpcs := [labVpc, devVpc]
      subnets := labWorkloadSubnets ++ labTgwSubnets
        ++ devWorkloadSubnets ++ devTgwSubnets
      igws := [labIgw, devIgw]
      routeTables := labRouteTables ++ devRouteTables
      igwRoutes := [labIgwRoute, devIgwRoute]
      rtAssociations := [labRta, devRta]
      tgw := tgw
      attachments := [labAttachment, devAttachment]
      tgwVpcRoutes := [labToDevRoute, devToLabRoute]
      securityGroups := [labSg, devSg]
      instances := [labInstance, devInstance] }

/-- C5: in the two-network assembly (any configuration that leaves both
VPC CIDRs at their defaults), the pass succeeds and declares exactly two
routes through `add_tgw_route_to_vpc_route_table`, with destination
ranges 10.201.0.0/16 and 10.200.0.0/16 respectively; the first lives in
the lab route table and the second in the dev route table (the two route
tables of the pass, in order), and both reference the same transit
gateway handle as next hop. -/
theorem two_vpc_assembly_reciprocal_routes (cfg : StackConfig)
    (hlab : cfg.lab_vpc_cidr = none) (hdev : cfg.dev_vpc_cidr = none) :
    ∃ g : Graph, buildMain cfg = .ok g
      ∧ g.tgwVpcRoutes = [
          add_tgw_route_to_vpc_route_table (cfg.project_name ++ "-lab-to-dev-via-tgw")
            (cfg.project_name ++ "-lab-workload" ++ "-" ++ toString 0)
            "10.201.0.0/16" (cfg.project_name ++ "-tgw"),
          add_tgw_route_to_vpc_route_table (cfg.project_name ++ "-dev-to-lab-via-tgw")
            (cfg.project_name ++ "-dev-workload" ++ "-" ++ toString 0)
            "10.200.0.0/16" (cfg.project_name ++ "-tgw")]
      ∧ g.tgwVpcRoutes.map Route.destinationCidrBlock = ["10.201.0.0/16", "10.200.0.0/16"]
      ∧ g.tgwVpcRoutes.map Route.routeTableId = g.routeTables.map RouteTable.name
      ∧ g.tgwVpcRoutes.map Route.transitGatewayId = [some g.tgw.name, some g.tgw.name] := by
  simp [buildMain, hlab, hdev, pyOrStr, pyTruthy, create_vpc, create_subnets,
    create_internet_gateway, create_route_tables, create_route, associate_route_table,
    create_transit_gateway, create_transit_gateway_vpc_attachment,
    add_tgw_route_to_vpc_route_table, Bind.bind, Except.bind, Pure.pure, Except.pure,
    append_isEmpty_false cfg.project_name "-lab-igw" (by decide),
    append_isEmpty_false cfg.project_name "-dev-igw" (by decide),
    (by decide : ("10.200.0.0/16").isEmpty = false),
    (by decide : ("10.201.0.0/16").isEmpty = false), (show List.range 1 = [0] from rfl)]

/-- C5 witness: the fully-default configuration (project name proj,
stack dev) yields the two concrete reciprocal routes. -/
theorem two_vpc_assembly_reciprocal_routes_checked :
    ∃ g : Graph,
      buildMain
        { lab_vpc_cidr := none, lab_subnet_cidr := none,
          lab_tgw_subnet_a_cidr := none, lab_tgw_subnet_b_cidr := none,
          dev_vpc_cidr := none, dev_subnet_cidr := none,
          dev_tgw_subnet_a_cidr := none, dev_tgw_subnet_b_cidr := none,
          instance_type := none, key_name := none, tgw_asn := none,
          tgw_use_default_rt := none, aws_region := none,
          project_name := "proj", stack_name := "dev", amiId := "ami-0" } = .ok g
      ∧ g.tgwVpcRoutes = [
          add_tgw_route_to_vpc_route_table "proj-lab-to-dev-via-tgw"
            ("proj" ++ "-lab-workload" ++ "-" ++ toString 0)
            "10.201.0.0/16" "proj-tgw",
          add_tgw_route_to_vpc_route_table "proj-dev-to-lab-via-tgw"
            ("proj" ++ "-dev-workload" ++ "-" ++ toString 0)
            "10.200.0.0/16" "proj-tgw"]
      ∧ g.tgwVpcRoutes.map Route.destinationCidrBlock = ["10.201.0.0/16", "10.200.0.0/16"]
      ∧ g.tgwVpcRoutes.map Route.routeTableId = g.routeTables.map RouteTable.name
      ∧ g.tgwVpcRoutes.map Route.transitGatewayId = [some g.tgw.name, some g.tgw.name] :=
  two_vpc_assembly_reciprocal_routes
    { lab_vpc_cidr := none, lab_subnet_cidr := none,
      lab_tgw_subnet_a_cidr := none, lab_tgw_subnet_b_cidr := none,
      dev_vpc_cidr := none, dev_subnet_cidr := none,
      dev_tgw_subnet_a_cidr := none, dev_tgw_subnet_b_cidr := none,
      instance_type := none, key_name := none, tgw_asn := none,
      tgw_use_default_rt := none, aws_region := none,
      project_name := "proj", stack_name := "dev", amiId := "ami-0" } rfl rfl

/-- C9: the declaration pass is deterministic; two runs whose
configuration surfaces agree field for field (the CIDRs, instance type,
key name, ASN, route-table flag, region, project and stack names, and
the externally looked-up machine image) declare structurally identical
resource graphs. -/
theorem buildMain_deterministic (c₁ c₂ : StackConfig)
    (h1 : c₁.lab_vpc_cidr = c₂.lab_vpc_cidr)
    (h2 : c₁.lab_subnet_cidr = c₂.lab_subnet_cidr)
    (h3 : c₁.lab_tgw_subnet_a_cidr = c₂.lab_tgw_subnet_a_cidr)
    (h4 : c₁.lab_tgw_subnet_b_cidr = c₂.lab_tgw_subnet_b_cidr)
    (h5 : c₁.dev_vpc_cidr = c₂.dev_vpc_cidr)
    (h6 : c₁.dev_subnet_cidr = c₂.dev_subnet_cidr)
    (h7 : c₁.dev_tgw_subnet_a_cidr = c₂.dev_tgw_subnet_a_cidr)
    (h8 : c₁.dev_tgw_subnet_b_cidr = c₂.dev_tgw_subnet_b_cidr)
    (h9 : c₁.instance_type = c₂.instance_type)
    (h10 : c₁.key_name = c₂.key_name)
    (h11 : c₁.tgw_asn = c₂.tgw_asn)
    (h12 : c₁.tgw_use_default_rt = c₂.tgw_use_default_rt)
    (h13 : c₁.aws_region = c₂.aws_region)
    (h14 : c₁.project_name = c₂.project_name)
    (h15 : c₁.stack_name = c₂.stack_name)
    (h16 : c₁.amiId = c₂.amiId) :
    buildMain c₁ = buildMain c₂ := by
  obtain ⟨a1, a2, a3, a4, a5, a6, a7, a8, a9, a10, a11, a12, a13, a14, a15, a16⟩ := c₁
  obtain ⟨b1, b2, b3, b4, b5, b6, b7, b8, b9, b10, b11, b12, b13, b14, b15, b16⟩ := c₂
  simp only at h1 h2 h3 h4 h5 h6 h7 h8 h9 h10 h11 h12 h13 h14 h15 h16
  subst h1 h2 h3 h4 h5 h6 h7 h8 h9 h10 h11 h12 h13 h14 h15 h16
  rfl

/-- C9 witness: two syntactically separate but field-equal
configurations produce the same declared graph. -/
theorem buildMain_deterministic_checked :
    buildMain
      { lab_vpc_cidr := some "10.10.0.0/16", lab_subnet_cidr := none,
        lab_tgw_subnet_a_cidr := none, lab_tgw_subnet_b_cidr := none,
        dev_vpc_cidr := none, dev_subnet_cidr := none,
        dev_tgw_subnet_a_cidr := none, dev_tgw_subnet_b_cidr := none,
        instance_type := some "t3.small", key_name := none, tgw_asn := some 64513,
        tgw_use_default_rt := some false, aws_region := none,
        project_name := "proj", stack_name := "dev", amiId := "ami-0" }
    = buildMain
      { lab_vpc_cidr := some "10.10.0.0/16", lab_subnet_cidr := none,
        lab_tgw_subnet_a_cidr := none, lab_tgw_subnet_b_cidr := none,
        dev_vpc_cidr := none, dev_subnet_cidr := none,
        dev_tgw_subnet_a_cidr := none, dev_tgw_subnet_b_cidr := none,
        instance_type := some "t3.small", key_name := none, tgw_asn := some 64513,
        tgw_use_default_rt := some false, aws_region := none,
        project_name := "proj", stack_name := "dev", amiId := "ami-0" } :=
  buildMain_deterministic _ _ rfl rfl rfl rfl rfl rfl rfl rfl rfl rfl rfl rfl
    rfl rfl rfl rfl
